import Mathlib

/-!
Shallow embedding of the listing-audit backend (`src/main.py`).

The Python program is a small Flask service.  Its core pieces are pure:
the identifier classifier (`is_asin`), the pagination loop of the review
collector (`extract_reviews_from_amazon`), the sentiment aggregator
(`analyze_reviews_sentiment`), the two deduction-based scoring engines
(`audit_amazon_content`, `audit_shopify_content`), the per-client throttle
(`limit_audit_requests`) and the `/audit` request handler (`audit`).

External effects (HTTP fetches of the listing page, of review pages and of
the Shopify page, and the polarity lexicon) are modelled as explicit
function parameters bundled in `Collaborators`; a failed HTTP fetch is
`none`.  Python floats are modelled as rationals, Python `str.strip` as
`pyStrip` (drop whitespace at both ends) and Python `str.split()` word
counting as `wordCount`.
-/

namespace ListingAudit

/-- Drop leading whitespace, then trailing whitespace, of a character list:
the behaviour of Python `str.strip()` with no argument. -/
def stripChars (l : List Char) : List Char :=
  (((l.dropWhile Char.isWhitespace).reverse.dropWhile Char.isWhitespace).reverse)

/-- Python `value.strip()` on a Lean `String`. -/
def pyStrip (s : String) : String := ⟨stripChars s.data⟩

/-- Python `text.split()` word count: the number of maximal runs of
non-whitespace characters. -/
def wordCount (s : String) : Nat :=
  ((s.split Char.isWhitespace).filter (fun w => w ≠ "")).length

/-- A normalized listing record scraped from an Amazon product page
(`extract_amazon_listing_details` result dictionary). -/
structure ListingRecord where
  title : String
  bullets : List String
  description : String
  images : List String
deriving Repr, DecidableEq

/-- The product information scraped from a Shopify page
(`fetch_shopify_details` result dictionary: no bullets). -/
structure ShopifyRecord where
  title : String
  description : String
  images : List String
deriving Repr, DecidableEq

/-- An audit report as built by the two scoring engines.  The Python code
keeps the recommendations as a list and serialises them with numbered
prefixes when building the response; here the report carries the list and
`renderRecommendations` performs the serialisation. -/
structure AuditReport where
  listing_score : Int
  sentiment_summary : String
  recommendations : List String
deriving Repr, DecidableEq

/-- `"\n".join(f"{i + 1}. {rec}" for i, rec in enumerate(recommendations))`. -/
def renderRecommendations (recs : List String) : String :=
  String.intercalate "\n"
    ((recs.enum).map (fun p => toString (p.1 + 1) ++ ". " ++ p.2))

/-- `analyze_reviews_sentiment`: the average compound polarity of the
reviews, `0` when there are none.  The lexicon (`sia.polarity_scores`) is
the explicit `polarity` parameter. -/
def analyze_reviews_sentiment (polarity : String → ℚ) (reviews : List String) : ℚ :=
  let scores := reviews.map polarity
  if scores = [] then 0 else scores.sum / (scores.length : ℚ)

/-- The three-way sentiment label computed at the top of
`audit_amazon_content` (line 130-132 of `src/main.py`). -/
def sentimentLabel (avg_sent : ℚ) : String :=
  if avg_sent > 0.2 then "positive"
  else if avg_sent > -0.2 then "neutral"
  else "negative"

/-- `max(0, min(100, listing_score))`. -/
def clampScore (x : Int) : Int := max 0 (min 100 x)

/-- Title rules of `audit_amazon_content`: recommendations appended and
points deducted for this category. -/
def amazonTitleRules (title : String) : List String × Int :=
  if title = "" then
    (["Title is missing. Add a descriptive title including key features and benefits."], 25)
  else if title.length < 50 then
    (["Your title is only " ++ toString title.length ++
      " characters. Aim for 60–80 characters and include relevant keywords."], 10)
  else if title.length > 200 then
    (["Your title is very long. Shorten it to under 200 characters for better readability."], 5)
  else ([], 0)

/-- The first five bullets that are too short (`len(bullet.split()) < 7`),
paired with their 1-based index, as enumerated by the Python loop
`for idx, bullet in enumerate(bullets[:5], start=1)`. -/
def thinBulletEntries (bullets : List String) : List (Nat × String) :=
  (List.enumFrom 1 (bullets.take 5)).filter (fun p => wordCount p.2 < 7)

/-- Bullet-point rules of `audit_amazon_content`. -/
def amazonBulletRules (bullets : List String) : List String × Int :=
  if bullets.length = 0 then
    (["No bullet points found. Add 5 concise bullet points highlighting key product benefits."], 20)
  else if bullets.length < 5 then
    (["Only " ++ toString bullets.length ++
      " bullet points detected. Aim for 5 bullet points with specific features and benefits."], 10)
  else
    ((thinBulletEntries bullets).map (fun p =>
        "Bullet " ++ toString p.1 ++
        " is too short. Expand it to clearly describe the feature or benefit."),
      2 * (thinBulletEntries bullets).length)

/-- Description rules of `audit_amazon_content`. -/
def amazonDescriptionRules (description : String) : List String × Int :=
  if description = "" then
    (["Description is missing. Add a detailed description covering product benefits, usage, and brand story."], 25)
  else if description.length < 150 then
    (["Your product description is quite short. Expand it to at least 150 words to address customer questions and concerns."], 10)
  else ([], 0)

/-- Image rules of `audit_amazon_content`. -/
def amazonImageRules (images : List String) : List String × Int :=
  if images.length = 0 then
    (["No images found. Add high-quality product images showing multiple angles and lifestyle context."], 20)
  else if images.length < 3 then
    (["Only " ++ toString images.length ++
      " images detected. Include at least 3 high-resolution images with different angles and use cases."], 10)
  else ([], 0)

/-- Review-sentiment rules of `audit_amazon_content`. -/
def amazonSentimentRules (avg_sent : ℚ) : List String × Int :=
  if avg_sent < -0.2 then
    (["Customer reviews are mostly negative. Investigate common complaints and address them in the listing and product improvements."], 15)
  else if avg_sent < 0.2 then
    (["Customer sentiment is mixed. Highlight positive feedback in the description and address common issues in the Q&A section."], 5)
  else ([], 0)

/-- The always-appended closing recommendation of `audit_amazon_content`. -/
def amazonGeneralRecommendation : String :=
  "Consider professional services: keyword research & SEO, A+ content design, enhanced brand content, review management, image enhancement, competitor benchmarking, backend keyword optimization, and PPC audit."

/-- `audit_amazon_content`: start from 100, apply the category rules in
source order (title, bullets, description, images, sentiment), append the
general recommendation, and clamp the score to `[0, 100]`. -/
def audit_amazon_content (polarity : String → ℚ) (details : ListingRecord)
    (reviews : List String) : AuditReport :=
  let avg_sent := analyze_reviews_sentiment polarity reviews
  let t := amazonTitleRules details.title
  let b := amazonBulletRules details.bullets
  let d := amazonDescriptionRules details.description
  let i := amazonImageRules details.images
  let s := amazonSentimentRules avg_sent
  { listing_score := clampScore (100 - t.2 - b.2 - d.2 - i.2 - s.2)
    sentiment_summary := sentimentLabel avg_sent
    recommendations := t.1 ++ b.1 ++ d.1 ++ i.1 ++ s.1 ++ [amazonGeneralRecommendation] }

/-- Title rules of `audit_shopify_content` (no overlong-title branch). -/
def shopifyTitleRules (title : String) : List String × Int :=
  if title = "" then
    (["Product title is missing. Add a clear, concise title with keywords."], 25)
  else if title.length < 50 then
    (["Product title is only " ++ toString title.length ++
      " characters. Consider adding more detail and relevant keywords."], 10)
  else ([], 0)

/-- Description rules of `audit_shopify_content`. -/
def shopifyDescriptionRules (description : String) : List String × Int :=
  if description = "" then
    (["Description is missing. Provide a thorough description covering features, benefits, and usage."], 25)
  else if description.length < 150 then
    (["Description is brief. Expand it to at least 150 words to improve SEO and answer customer questions."], 10)
  else ([], 0)

/-- Image rules of `audit_shopify_content`. -/
def shopifyImageRules (images : List String) : List String × Int :=
  if images.length = 0 then
    (["No images found. Add multiple high-quality images showing the product from various angles."], 20)
  else if images.length < 3 then
    (["Only " ++ toString images.length ++
      " image(s) found. Include at least 3 images, including lifestyle shots and close-ups."], 10)
  else ([], 0)

/-- The always-appended closing recommendation of `audit_shopify_content`. -/
def shopifyGeneralRecommendation : String :=
  "Enhance your listing further by optimizing SEO keywords, using professional product photography, adding customer reviews or testimonials, and refining descriptions with storytelling."

/-- `audit_shopify_content`: title, description and image rules only, an
empty sentiment summary, score clamped to `[0, 100]`. -/
def audit_shopify_content (title : String) (description : String)
    (images : List String) : AuditReport :=
  let t := shopifyTitleRules title
  let d := shopifyDescriptionRules description
  let i := shopifyImageRules images
  { listing_score := clampScore (100 - t.2 - d.2 - i.2)
    sentiment_summary := ""
    recommendations := t.1 ++ d.1 ++ i.1 ++ [shopifyGeneralRecommendation] }

/-- The pagination loop of `extract_reviews_from_amazon`.  `fetchPage pg`
is the outcome of fetching review page `pg`: `none` for a non-200 HTTP
status and `some l` for the review texts scraped from the page.  The loop
runs while fewer than `max_reviews` reviews have accumulated, stops at the
first failed or empty page, and otherwise appends the page and moves to
the next page number.  The second component counts the page fetches
performed. -/
def collectReviewsAux (fetchPage : Nat → Option (List String)) (max_reviews : Nat)
    (page : Nat) (reviews : List String) : List String × Nat :=
  if _h : reviews.length < max_reviews then
    match fetchPage page with
    | none => (reviews, 1)
    | some page_reviews =>
      if hpe : page_reviews.isEmpty then (reviews, 1)
      else
        let r := collectReviewsAux fetchPage max_reviews (page + 1) (reviews ++ page_reviews)
        (r.1, r.2 + 1)
  else (reviews, 0)
termination_by max_reviews - reviews.length
decreasing_by
  have hlen : 0 < page_reviews.length := by
    cases page_reviews with
    | nil => simp at hpe
    | cons a l => simp
  simp only [List.length_append]
  omega

/-- `extract_reviews_from_amazon`: run the pagination loop starting at
page 1 with no reviews, then truncate with `reviews[:max_reviews]`. -/
def extract_reviews_from_amazon (fetchPage : Nat → Option (List String))
    (max_reviews : Nat) : List String :=
  (collectReviewsAux fetchPage max_reviews 1 []).1.take max_reviews

/-- The number of page fetches `extract_reviews_from_amazon` performs. -/
def reviewPageFetches (fetchPage : Nat → Option (List String))
    (max_reviews : Nat) : Nat :=
  (collectReviewsAux fetchPage max_reviews 1 []).2

/-- A character matched by the class `[A-Z0-9]` under `re.IGNORECASE`. -/
def isAsinChar (c : Char) : Bool :=
  (('A' ≤ c && c ≤ 'Z') || ('a' ≤ c && c ≤ 'z') || ('0' ≤ c && c ≤ '9'))

/-- `is_asin`: `re.match(r'^[A-Z0-9]{8,10}$', value.strip(), re.IGNORECASE)`:
the stripped string is 8 to 10 characters long and every character is
alphanumeric. -/
def is_asin (value : String) : Bool :=
  let t := (pyStrip value).data
  decide (8 ≤ t.length) && decide (t.length ≤ 10) && t.all isAsinChar

/-- Python `input_value.startswith('http')`. -/
def startswithHttp (s : String) : Bool := List.isPrefixOf "http".data s.data

/-- The three-way outcome of input classification (§4.1 of the spec). -/
inductive Classification
  | identifier
  | storefrontUrl
  | invalid
deriving Repr, DecidableEq

/-- The classification decision of the `/audit` handler: `is_asin` is
checked first (line 308), then `startswith('http')` (line 323), on the
stripped input. -/
def classify (input : String) : Classification :=
  if is_asin (pyStrip input) then Classification.identifier
  else if startswithHttp (pyStrip input) then Classification.storefrontUrl
  else Classification.invalid

/-- `MAX_AUDITS_PER_IP`. -/
def MAX_AUDITS_PER_IP : Nat := 3

/-- Outcome of the `before_request` throttle gate for one request. -/
inductive GateResult
  | rejected (status : Nat) (success : Bool) (message : String)
  | passed
deriving Repr, DecidableEq

/-- The throttle rejection message. -/
def throttleMessage : String :=
  "Free audit limit exceeded. Please contact us for additional audits."

/-- `limit_audit_requests` for one client identity: given the client's
current count, either reject with a 429 response (count unchanged) or pass
and increment the count.  The increment happens in the gate, before the
handler sees the request body. -/
def limit_audit_requests (count : Nat) : GateResult × Nat :=
  if count ≥ MAX_AUDITS_PER_IP then
    (GateResult.rejected 429 false throttleMessage, count)
  else
    (GateResult.passed, count + 1)

/-- The client's stored count after `n` POST `/audit` requests, starting
from a fresh process (count 0). -/
def stateAfter : Nat → Nat
  | 0 => 0
  | n + 1 => (limit_audit_requests (stateAfter n)).2

/-- The external collaborators of the service: the Amazon listing
extractor, the review page fetcher, the Shopify extractor (each `none` on
a failed fetch), and the sentiment lexicon. -/
structure Collaborators where
  amazonDetails : String → Option ListingRecord
  fetchReviewPage : String → Nat → Option (List String)
  shopifyDetails : String → Option ShopifyRecord
  polarity : String → ℚ

/-- The JSON response of the `/audit` endpoint together with its HTTP
status code. -/
structure HttpResponse where
  status : Nat
  success : Bool
  message : Option String
  listing_score : Option Int
  sentiment_summary : Option String
  recommendations : Option String
deriving Repr, DecidableEq

/-- Message of the empty-input failure (`InvalidInput`). -/
def noInputMessage : String := "No input provided."

/-- Message of the unclassifiable-input failure (`InvalidFormat`). -/
def invalidFormatMessage : String :=
  "Invalid input format. Use a valid ASIN or Shopify store URL."

/-- Message of a failed Amazon extraction (`ExtractionFailed`). -/
def amazonFailedMessage : String := "Failed to fetch product details from Amazon."

/-- Message of a failed Shopify extraction (`ExtractionFailed`). -/
def shopifyFailedMessage : String := "Failed to fetch Shopify page."

/-- The `/audit` request handler (`audit` in `src/main.py`), after the
throttle gate has passed: strip the input, reject empty input with 400,
take the identifier path when `is_asin` accepts, else the URL path when
the input starts with `http`, else reject with the invalid-format 400. -/
def audit (w : Collaborators) (input : String) : HttpResponse :=
  let input_value := pyStrip input
  if input_value = "" then
    { status := 400, success := false, message := some noInputMessage,
      listing_score := none, sentiment_summary := none, recommendations := none }
  else if is_asin input_value then
    match w.amazonDetails input_value with
    | none =>
      { status := 500, success := false, message := some amazonFailedMessage,
        listing_score := none, sentiment_summary := none, recommendations := none }
    | some details =>
      let reviews := extract_reviews_from_amazon (w.fetchReviewPage input_value) 100
      let report := audit_amazon_content w.polarity details reviews
      { status := 200, success := true, message := none,
        listing_score := some report.listing_score,
        sentiment_summary := some report.sentiment_summary,
        recommendations := some (renderRecommendations report.recommendations) }
  else if startswithHttp input_value then
    match w.shopifyDetails input_value with
    | none =>
      { status := 500, success := false, message := some shopifyFailedMessage,
        listing_score := none, sentiment_summary := none, recommendations := none }
    | some sd =>
      let report := audit_shopify_content sd.title sd.description sd.images
      { status := 200, success := true, message := none,
        listing_score := some report.listing_score,
        sentiment_summary := some report.sentiment_summary,
        recommendations := some (renderRecommendations report.recommendations) }
  else
    { status := 400, success := false, message := some invalidFormatMessage,
      listing_score := none, sentiment_summary := none, recommendations := none }

/-- One full POST `/audit` request: the `before_request` throttle gate
runs first; only when it passes does the `audit` handler run.  Returns
the response and the client's new count. -/
def handleRequest (w : Collaborators) (count : Nat) (input : String) :
    HttpResponse × Nat :=
  match limit_audit_requests count with
  | (GateResult.rejected st succ msg, count2) =>
    ({ status := st, success := succ, message := some msg,
       listing_score := none, sentiment_summary := none, recommendations := none },
     count2)
  | (GateResult.passed, count2) => (audit w input, count2)

/-! ## Helper lemmas -/

theorem clampScore_nonneg (x : Int) : 0 ≤ clampScore x := le_max_left 0 _

theorem clampScore_le_100 (x : Int) : clampScore x ≤ 100 :=
  max_le (by norm_num) (min_le_left _ _)

theorem shopifyTitleRules_ded (t : String) :
    0 ≤ (shopifyTitleRules t).2 ∧ (shopifyTitleRules t).2 ≤ 25 := by
  unfold shopifyTitleRules; split_ifs <;> simp

theorem shopifyDescriptionRules_ded (d : String) :
    0 ≤ (shopifyDescriptionRules d).2 ∧ (shopifyDescriptionRules d).2 ≤ 25 := by
  unfold shopifyDescriptionRules; split_ifs <;> simp

theorem shopifyImageRules_ded (i : List String) :
    0 ≤ (shopifyImageRules i).2 ∧ (shopifyImageRules i).2 ≤ 20 := by
  unfold shopifyImageRules; split_ifs <;> simp

/-! ## Claim theorems -/

/-- C1: for every `ListingRecord` and every sentiment input, the
`listing_score` of the report produced by the scoring engine is an
integer in `[0, 100]`, on the identifier path (`audit_amazon_content`)
as well as on the URL path (`audit_shopify_content`). -/
theorem listing_score_in_range :
    (∀ (polarity : String → ℚ) (details : ListingRecord) (reviews : List String),
        0 ≤ (audit_amazon_content polarity details reviews).listing_score ∧
        (audit_amazon_content polarity details reviews).listing_score ≤ 100) ∧
    (∀ (title description : String) (images : List String),
        0 ≤ (audit_shopify_content title description images).listing_score ∧
        (audit_shopify_content title description images).listing_score ≤ 100) :=
  ⟨fun _ _ _ => ⟨clampScore_nonneg _, clampScore_le_100 _⟩,
   fun _ _ _ => ⟨clampScore_nonneg _, clampScore_le_100 _⟩⟩

/-- C9: on the URL path only the title, description and image rules can
fire (no bullet, overlong-title or sentiment rules exist in
`audit_shopify_content`), so the maximal deduction is 25 + 25 + 20 = 70
and every URL-path `listing_score` is at least 30. -/
theorem shopify_score_at_least_30 (title description : String) (images : List String) :
    30 ≤ (audit_shopify_content title description images).listing_score := by
  have ht := shopifyTitleRules_ded title
  have hd := shopifyDescriptionRules_ded description
  have hi := shopifyImageRules_ded images
  show 30 ≤ clampScore (100 - (shopifyTitleRules title).2 -
      (shopifyDescriptionRules description).2 - (shopifyImageRules images).2)
  unfold clampScore
  omega

/-- C7: the sentiment aggregator returns the arithmetic mean of the
per-review compound polarity values, returns exactly `0` (not an error)
on an empty review list, and that empty-input score maps to the label
`neutral`. -/
theorem analyze_reviews_sentiment_mean (polarity : String → ℚ) (reviews : List String) :
    analyze_reviews_sentiment polarity reviews =
      (if reviews = [] then 0 else (reviews.map polarity).sum / (reviews.length : ℚ)) ∧
    analyze_reviews_sentiment polarity [] = 0 ∧
    sentimentLabel (analyze_reviews_sentiment polarity []) = "neutral" := by
  have h0 : analyze_reviews_sentiment polarity [] = 0 := rfl
  refine ⟨?_, h0, by rw [h0]; norm_num [sentimentLabel]⟩
  unfold analyze_reviews_sentiment
  simp only [List.map_eq_nil_iff, List.length_map]

/-- C3 counterexample: at a sentiment score of exactly `-0.2` the code
labels the sentiment `negative`, not `neutral` as the claim states
(line 131 tests `avg_sent > -0.2`, which is false at `-0.2`). -/
theorem sentimentLabel_boundary_not_neutral :
    ¬ (sentimentLabel (-0.2 : ℚ) = "neutral") := by
  unfold sentimentLabel
  norm_num
  decide

/-- C3 amended: the label is `positive` exactly when `s > 0.2`,
`negative` exactly when `s ≤ -0.2` (the boundary `-0.2` itself is
`negative`), and `neutral` exactly when `-0.2 < s ≤ 0.2`. -/
theorem sentimentLabel_thresholds (s : ℚ) :
    (sentimentLabel s = "positive" ↔ 0.2 < s) ∧
    (sentimentLabel s = "negative" ↔ s ≤ -0.2) ∧
    (sentimentLabel s = "neutral" ↔ (-0.2 < s ∧ s ≤ 0.2)) := by
  unfold sentimentLabel
  split_ifs with h1 h2
  · exact ⟨⟨fun _ => h1, fun _ => rfl⟩,
      ⟨fun h => absurd h (by decide),
       fun h => absurd (le_trans h (by norm_num)) (not_le.mpr h1)⟩,
      ⟨fun h => absurd h (by decide), fun h => absurd h1 (not_lt.mpr h.2)⟩⟩
  · exact ⟨⟨fun h => absurd h (by decide), fun h => absurd h h1⟩,
      ⟨fun h => absurd h (by decide), fun h => absurd h2 (not_lt.mpr h)⟩,
      ⟨fun _ => ⟨h2, not_lt.mp h1⟩, fun _ => rfl⟩⟩
  · exact ⟨⟨fun h => absurd h (by decide), fun h => absurd h h1⟩,
      ⟨fun _ => not_lt.mp h2, fun _ => rfl⟩,
      ⟨fun h => absurd h (by decide), fun h => absurd h.1 (not_lt.mpr (not_lt.mp h2))⟩⟩

/-- The all-empty listing of Scenario A with an empty review set (so the
average sentiment is exactly 0). -/
def scenarioAReport : AuditReport :=
  audit_amazon_content (fun _ => 0) ⟨"", [], "", []⟩ []

/-- Full evaluation of the engine on the Scenario A input. -/
theorem scenarioAReport_eval :
    scenarioAReport =
      { listing_score := 5, sentiment_summary := "neutral",
        recommendations :=
          ["Title is missing. Add a descriptive title including key features and benefits.",
           "No bullet points found. Add 5 concise bullet points highlighting key product benefits.",
           "Description is missing. Add a detailed description covering product benefits, usage, and brand story.",
           "No images found. Add high-quality product images showing multiple angles and lifestyle context.",
           "Customer sentiment is mixed. Highlight positive feedback in the description and address common issues in the Q&A section.",
           amazonGeneralRecommendation] } := by
  unfold scenarioAReport audit_amazon_content analyze_reviews_sentiment
  norm_num [amazonTitleRules, amazonBulletRules, amazonDescriptionRules,
    amazonImageRules, amazonSentimentRules, sentimentLabel, clampScore,
    Int.min_def, Int.max_def]

/-- C2 counterexample: on the all-empty listing with sentiment 0 the
engine does NOT return score 10 with 5 recommendations: the
mixed-sentiment rule (`avg_sent < 0.2` at 0) also fires, deducting 5 more
points and appending a fifth deduction recommendation. -/
theorem scenarioA_not_score10_recs5 :
    ¬ (scenarioAReport.listing_score = 10 ∧
       scenarioAReport.recommendations.length = 5) := by
  rw [scenarioAReport_eval]
  decide

/-- C2 amended: on the all-empty listing with sentiment 0 the score is
`100 - 25 - 20 - 25 - 20 - 5 = 5` and the recommendation list has exactly
6 entries — the 5 deduction-triggered recommendations followed by the
general one, in the fixed order title, bullets, description, images,
sentiment, general. -/
theorem scenarioA_score5_recs6 :
    scenarioAReport.listing_score = 5 ∧
    scenarioAReport.recommendations =
      ["Title is missing. Add a descriptive title including key features and benefits.",
       "No bullet points found. Add 5 concise bullet points highlighting key product benefits.",
       "Description is missing. Add a detailed description covering product benefits, usage, and brand story.",
       "No images found. Add high-quality product images showing multiple angles and lifestyle context.",
       "Customer sentiment is mixed. Highlight positive feedback in the description and address common issues in the Q&A section.",
       amazonGeneralRecommendation] := by
  rw [scenarioAReport_eval]
  exact ⟨rfl, rfl⟩

theorem collectReviewsAux_fetches_le (fetchPage : Nat → Option (List String))
    (max_reviews : Nat) :
    ∀ (n page : Nat) (acc : List String), max_reviews - acc.length ≤ n →
      (collectReviewsAux fetchPage max_reviews page acc).2 ≤ max_reviews - acc.length := by
  intro n
  induction n with
  | zero =>
    intro page acc hn
    unfold collectReviewsAux
    have h : ¬ acc.length < max_reviews := by omega
    simp [h]
  | succ n ih =>
    intro page acc hn
    unfold collectReviewsAux
    by_cases h : acc.length < max_reviews
    · rw [dif_pos h]
      cases hf : fetchPage page with
      | none => simpa using by omega
      | some page_reviews =>
        by_cases hpe : page_reviews.isEmpty
        · simp only [hpe, dite_true]
          omega
        · simp only [hpe, dite_false]
          have hlen : 0 < page_reviews.length := by
            cases page_reviews with
            | nil => simp at hpe
            | cons a l => simp
          have hrec := ih (page + 1) (acc ++ page_reviews)
            (by simp only [List.length_append]; omega)
          simp only [List.length_append] at hrec
          show (collectReviewsAux fetchPage max_reviews (page + 1)
              (acc ++ page_reviews)).2 + 1 ≤ max_reviews - acc.length
          omega
    · rw [dif_neg h]
      simp

/-- C4: the review collector always returns at most 100 reviews; its
result length is exactly the minimum of the cap and what the pagination
loop accumulated (so a last page that over-delivers is truncated to
exactly the cap); and it performs at most 100 page fetches (page numbers
start at 1 and increase by 1; a failed or empty page stops the loop), so
it terminates after finitely many fetches. -/
theorem review_collector_cap (fetchPage : Nat → Option (List String)) :
    (extract_reviews_from_amazon fetchPage 100).length ≤ 100 ∧
    (extract_reviews_from_amazon fetchPage 100).length =
      min 100 (collectReviewsAux fetchPage 100 1 []).1.length ∧
    reviewPageFetches fetchPage 100 ≤ 100 := by
  refine ⟨?_, ?_, ?_⟩
  · unfold extract_reviews_from_amazon
    rw [List.length_take]
    exact Nat.min_le_left _ _
  · unfold extract_reviews_from_amazon
    exact List.length_take _ _
  · unfold reviewPageFetches
    have := collectReviewsAux_fetches_le fetchPage 100 100 1 [] (by simp)
    simpa using this

theorem dropWhile_dropWhile (p : Char → Bool) (l : List Char) :
    (l.dropWhile p).dropWhile p = l.dropWhile p := by
  induction l with
  | nil => rfl
  | cons a as ih =>
    by_cases h : p a
    · rw [List.dropWhile_cons_of_pos h, ih]
    · rw [List.dropWhile_cons_of_neg h, List.dropWhile_cons_of_neg h]

theorem dropWhile_cons_fixed (p : Char → Bool) (a : Char) (as : List Char)
    (h : List.dropWhile p (a :: as) = a :: as) : p a = false := by
  by_cases hp : p a
  · exfalso
    rw [List.dropWhile_cons_of_pos hp] at h
    have hle : (as.dropWhile p).length ≤ as.length :=
      (List.dropWhile_suffix p).sublist.length_le
    have h2 := congrArg List.length h
    simp at h2
    omega
  · exact Bool.eq_false_iff.mpr hp

theorem dropWhile_fixed_of_append (p : Char → Bool) (t r l : List Char)
    (hr : t ++ r = l) (hl : l.dropWhile p = l) :
    t.dropWhile p = t := by
  cases t with
  | nil => rfl
  | cons a ts =>
    have hform : l = a :: (ts ++ r) := by rw [← hr]; rfl
    rw [hform] at hl
    have hpa := dropWhile_cons_fixed p a (ts ++ r) hl
    rw [List.dropWhile_cons_of_neg (by simp [hpa])]

theorem stripChars_idem (l : List Char) :
    stripChars (stripChars l) = stripChars l := by
  obtain ⟨u, hu⟩ :=
    List.dropWhile_suffix (l := (l.dropWhile Char.isWhitespace).reverse)
      (p := Char.isWhitespace)
  have hpre : (stripChars l) ++ u.reverse = l.dropWhile Char.isWhitespace := by
    have h2 := congrArg List.reverse hu
    rw [List.reverse_append, List.reverse_reverse] at h2
    exact h2
  have hfix : (stripChars l).dropWhile Char.isWhitespace = stripChars l :=
    dropWhile_fixed_of_append Char.isWhitespace _ _ _ hpre
      (dropWhile_dropWhile Char.isWhitespace l)
  show (((stripChars l).dropWhile Char.isWhitespace).reverse.dropWhile
      Char.isWhitespace).reverse = stripChars l
  rw [hfix]
  have hrev : (stripChars l).reverse =
      (l.dropWhile Char.isWhitespace).reverse.dropWhile Char.isWhitespace := by
    simp [stripChars]
  rw [hrev, dropWhile_dropWhile]
  simp [stripChars]

theorem pyStrip_idem (s : String) : pyStrip (pyStrip s) = pyStrip s :=
  congrArg String.mk (stripChars_idem s.data)

/-- The identifier shape in the words of the spec: the string is 8 to 10
characters long and every character is alphanumeric — an upper-case
letter, a lower-case letter (case-insensitive match) or a digit. -/
def asinShapeSpec (t : String) : Prop :=
  8 ≤ t.length ∧ t.length ≤ 10 ∧
    ∀ c ∈ t.data, ('A' ≤ c ∧ c ≤ 'Z') ∨ ('a' ≤ c ∧ c ≤ 'z') ∨ ('0' ≤ c ∧ c ≤ '9')

theorem is_asin_iff (value : String) :
    is_asin value = true ↔ asinShapeSpec (pyStrip value) := by
  unfold is_asin asinShapeSpec isAsinChar
  rw [show (pyStrip value).length = (pyStrip value).data.length from rfl]
  simp only [Bool.and_eq_true, decide_eq_true_eq, List.all_eq_true,
    Bool.or_eq_true, and_assoc, or_assoc]

/-- C5: classification of a request input.  With `t` the
whitespace-trimmed input: the result is `identifier` exactly when `t`
matches the 8-to-10 alphanumeric, case-insensitive pattern;
`storefrontUrl` exactly when it does not match that pattern but begins
with the scheme prefix `http` (which both `http://` and `https://` URLs
begin with); and `invalid` otherwise.  The first equivalence places no
URL condition, so an input matching both shapes (e.g. `httpABCD`) is an
`identifier`: the identifier check runs first and takes precedence. -/
theorem classify_spec (s : String) :
    (classify s = Classification.identifier ↔ asinShapeSpec (pyStrip s)) ∧
    (classify s = Classification.storefrontUrl ↔
      (¬ asinShapeSpec (pyStrip s) ∧ startswithHttp (pyStrip s) = true)) ∧
    (classify s = Classification.invalid ↔
      (¬ asinShapeSpec (pyStrip s) ∧ ¬ startswithHttp (pyStrip s) = true)) := by
  have hkey : is_asin (pyStrip s) = true ↔ asinShapeSpec (pyStrip s) := by
    rw [is_asin_iff, pyStrip_idem]
  unfold classify
  by_cases h1 : is_asin (pyStrip s) = true
  · rw [if_pos h1]
    have hshape := hkey.mp h1
    exact ⟨⟨fun _ => hshape, fun _ => rfl⟩,
      ⟨fun h => absurd h (by decide), fun h => absurd hshape h.1⟩,
      ⟨fun h => absurd h (by decide), fun h => absurd hshape h.1⟩⟩
  · rw [if_neg h1]
    have hshape : ¬ asinShapeSpec (pyStrip s) := fun h => h1 (hkey.mpr h)
    by_cases h2 : startswithHttp (pyStrip s) = true
    · rw [if_pos h2]
      exact ⟨⟨fun h => absurd h (by decide), fun h => absurd h hshape⟩,
        ⟨fun _ => ⟨hshape, h2⟩, fun _ => rfl⟩,
        ⟨fun h => absurd h (by decide), fun h => absurd h2 h.2⟩⟩
    · rw [if_neg h2]
      exact ⟨⟨fun h => absurd h (by decide), fun h => absurd h hshape⟩,
        ⟨fun h => absurd h (by decide), fun h => absurd h.2 h2⟩,
        ⟨fun _ => ⟨hshape, h2⟩, fun _ => rfl⟩⟩

theorem stateAfter_eq_min (n : Nat) : stateAfter n = min n MAX_AUDITS_PER_IP := by
  induction n with
  | zero => rfl
  | succ n ih =>
    show (limit_audit_requests (stateAfter n)).2 = min (n + 1) MAX_AUDITS_PER_IP
    rw [ih]
    unfold limit_audit_requests MAX_AUDITS_PER_IP
    split_ifs with h
    · simp only []
      omega
    · simp only []
      omega

/-- The 429 response the throttle gate sends back. -/
def throttle429Response : HttpResponse :=
  { status := 429, success := false, message := some throttleMessage,
    listing_score := none, sentiment_summary := none, recommendations := none }

/-- C6: for one client identity within one process lifetime, after `n`
prior requests the next (the `(n+1)`-st) POST `/audit` request reaches
the audit handler exactly when `n + 1 ≤ 3`; from the 4th request on the
gate short-circuits with the 429 rejection envelope (success `false`)
whose body does not depend on the collaborators or the input — the
handler never runs — and whose message differs from the InvalidFormat and
ExtractionFailed messages (and from the empty-input message). -/
theorem throttle_gate_spec (n : Nat) (w : Collaborators) (input : String) :
    handleRequest w (stateAfter n) input =
      (if n + 1 ≤ MAX_AUDITS_PER_IP then (audit w input, stateAfter n + 1)
       else (throttle429Response, stateAfter n)) ∧
    throttleMessage ≠ invalidFormatMessage ∧
    throttleMessage ≠ amazonFailedMessage ∧
    throttleMessage ≠ shopifyFailedMessage ∧
    throttleMessage ≠ noInputMessage := by
  refine ⟨?_, by decide, by decide, by decide, by decide⟩
  have hs := stateAfter_eq_min n
  by_cases h : n + 1 ≤ MAX_AUDITS_PER_IP
  · have hc : ¬ stateAfter n ≥ MAX_AUDITS_PER_IP := by
      rw [hs]; unfold MAX_AUDITS_PER_IP at *; omega
    rw [if_pos h]
    unfold handleRequest limit_audit_requests
    rw [if_neg hc]
  · have hc : stateAfter n ≥ MAX_AUDITS_PER_IP := by
      rw [hs]; unfold MAX_AUDITS_PER_IP at *; omega
    rw [if_neg h]
    unfold handleRequest limit_audit_requests
    rw [if_pos hc]
    rfl

/-- C10: whenever a client's count is below the cap, processing a POST
`/audit` request increments the stored count by one, whatever the
collaborators return and whatever the request body is — in particular
also when the audit itself then fails with a 400 or 500 response.  The
increment happens in the gate, before the handler looks at the body. -/
theorem quota_consumed_below_cap (w : Collaborators) (count : Nat) (input : String)
    (h : count < MAX_AUDITS_PER_IP) :
    (handleRequest w count input).2 = count + 1 := by
  unfold handleRequest limit_audit_requests
  rw [if_neg (by omega)]

/-- A collaborator set whose every fetch fails. -/
def emptyWorld : Collaborators :=
  { amazonDetails := fun _ => none, fetchReviewPage := fun _ _ => none,
    shopifyDetails := fun _ => none, polarity := fun _ => 0 }

/-- Witness for C10 at a concrete failing request: a fresh client (count
0, below the cap 3) sending the unclassifiable body `"!!!"` gets a 400
invalid-format response, and the count still becomes 1. -/
theorem quota_consumed_below_cap_witness :
    0 < MAX_AUDITS_PER_IP ∧
    (handleRequest emptyWorld 0 "!!!").2 = 0 + 1 ∧
    (handleRequest emptyWorld 0 "!!!").1.status = 400 ∧
    (handleRequest emptyWorld 0 "!!!").1.success = false :=
  ⟨by decide, quota_consumed_below_cap emptyWorld 0 "!!!" (by decide),
   by decide, by decide⟩

/-- C8: on a successful URL-path request (trimmed input nonempty, not an
identifier, starting with `http`) the response's `sentiment_summary` is
`some ""` — the empty label, never one of the three sentiment labels —
and the sentiment aggregator applied to the empty review set (the URL
path collects no reviews) yields the score 0. -/
theorem url_path_blank_sentiment (w : Collaborators) (input : String)
    (hne : pyStrip input ≠ "")
    (hasin : is_asin (pyStrip input) = false)
    (hhttp : startswithHttp (pyStrip input) = true)
    (hsucc : (audit w input).success = true) :
    (audit w input).sentiment_summary = some "" ∧
    analyze_reviews_sentiment w.polarity [] = 0 ∧
    ("" : String) ≠ "positive" ∧ ("" : String) ≠ "neutral" ∧
    ("" : String) ≠ "negative" := by
  refine ⟨?_, rfl, by decide, by decide, by decide⟩
  cases hsd : w.shopifyDetails (pyStrip input) with
  | none =>
    exfalso
    unfold audit at hsucc
    rw [if_neg hne, if_neg (by simp [hasin]), if_pos hhttp, hsd] at hsucc
    simp at hsucc
  | some sd =>
    unfold audit
    rw [if_neg hne, if_neg (by simp [hasin]), if_pos hhttp, hsd]
    rfl

/-- A collaborator set whose Shopify extraction succeeds. -/
def shopWorld : Collaborators :=
  { amazonDetails := fun _ => none, fetchReviewPage := fun _ _ => none,
    shopifyDetails := fun _ => some { title := "t", description := "d", images := [] },
    polarity := fun _ => 0 }

/-- Witness for C8 at a concrete successful URL-path request. -/
theorem url_path_blank_sentiment_witness :
    (audit shopWorld "http://x").sentiment_summary = some "" :=
  (url_path_blank_sentiment shopWorld "http://x" (by decide) (by decide)
    (by decide) (by decide)).1

end ListingAudit
